import Mathlib

/-
Verification of the microphone capture-session manager
(src/src/utils/audio-manager.js) against its natural-language
specification.

The JavaScript class `AudioManager` is embedded shallowly: its mutable
fields become a record `AudioManager`, the surrounding mutable world
(settings store, mixing subsystem, event bus, track liveness accounting)
becomes a record `World`, and each method becomes a Lean function that
threads these records explicitly.  Platform sniffing (`isMobile`,
`isMobileVR`, Firefox Reality, Oculus user agents) is a `Platform`
record resolved once, matching the module-level constants of the source.
The device provider (`navigator.mediaDevices`) is an oracle: each call
site takes the provider's answer for that call as an explicit argument
(`Option MediaStream` for getUserMedia, `List RawDevice` for
enumerateDevices), so theorems quantify over every possible provider
behaviour.
-/

namespace Hubs

/-- A cached microphone device entry as produced by `fetchMicDevices`:
`value` is the device id, `label` the human-readable name. -/
structure MicDevice where
  value : String
  label : String
deriving DecidableEq

/-- The three "disable" preference flags read from the settings store.
Each is `Option Bool`: `none` models an absent key. -/
structure Preferences where
  disableEchoCancellation : Option Bool := none
  disableNoiseSuppression : Option Bool := none
  disableAutoGainControl : Option Bool := none
deriving DecidableEq

/-- The settings section of the store; `none` models an absent
`lastUsedMicDeviceId`. -/
structure Settings where
  lastUsedMicDeviceId : Option String := none
deriving DecidableEq

/-- Modelled from the spec: the persistent settings store is an external
collaborator (its implementation is not under src/); per the spec its
`update` is a shallow merge and its state holds user preferences and the
last-used device identifier. -/
structure Store where
  preferences : Preferences := {}
  settings : Settings := {}
deriving DecidableEq

/-- The device-selection clause of an audio constraint set:
`exact ids` for `\x7bdeviceId: \x7bexact: [id]\x7d\x7d`,
`ideal id` for `\x7bdeviceId: \x7bideal: id\x7d\x7d`. -/
inductive DeviceIdClause where
  | exact : List String → DeviceIdClause
  | ideal : String → DeviceIdClause
deriving DecidableEq

/-- The `audio` member of a getUserMedia constraints object.  The three
processing toggles are `Option Bool` because the caller-supplied object
lacks them until `fetchAudioTrack` writes them in. -/
structure AudioConstraints where
  deviceId : Option DeviceIdClause := none
  echoCancellation : Option Bool := none
  noiseSuppression : Option Bool := none
  autoGainControl : Option Bool := none
deriving DecidableEq

/-- A getUserMedia constraints object. -/
structure Constraints where
  audio : AudioConstraints := {}
deriving DecidableEq

/-- A capture track handle; `id` identifies the underlying platform
object so stopping/ending can be recorded per track. -/
structure Track where
  id : Nat
  label : String
deriving DecidableEq

/-- A media stream handle: `getAudioTracks()` is the `tracks` list. -/
structure MediaStream where
  id : Nat
  tracks : List Track
deriving DecidableEq

/-- A raw device record as returned by `enumerateDevices`. -/
structure RawDevice where
  deviceId : String
  kind : String
  label : String
deriving DecidableEq

/-- The platform facts sniffed at module load: `AFRAME.utils.device.isMobile()`,
`AFRAME.utils.device.isMobileVR()`, whether the user agent matches
`Firefox`, and whether it matches `Oculus`. -/
structure Platform where
  isMobile : Bool
  isMobileVR : Bool
  firefoxUA : Bool
  oculusUA : Bool
deriving DecidableEq

/-- Source: `isFirefoxReality = isMobileVR && navigator.userAgent.match(/Firefox/)`. -/
def Platform.isFirefoxReality (p : Platform) : Bool :=
  p.isMobileVR && p.firefoxUA

/-- Modelled from the spec: the downstream audio-mixing subsystem
(`scene.systems["hubs-systems"].audioSystem`, not under src/).  Per the
spec it accepts raw capture streams under a logical channel name and
exposes the combined `outboundStream`; attaching a stream makes the
mixed outbound stream available. -/
structure AudioSystem where
  channels : List (String × MediaStream) := []
  outboundStream : Option MediaStream := none
deriving DecidableEq

/-- Modelled from the spec: `addStreamToOutboundAudio(name, stream)`
registers the stream under `name` and refreshes the mixed outbound
stream (modelled as the concatenation of all attached tracks). -/
def AudioSystem.addStreamToOutboundAudio (a : AudioSystem) (name : String)
    (s : MediaStream) : AudioSystem :=
  let channels := (name, s) :: a.channels
  { channels := channels,
    outboundStream := some { id := 0, tracks := channels.foldr (fun p acc => p.2.tracks ++ acc) [] } }

/-- The mutable fields of the `AudioManager` instance. -/
structure AudioManager where
  micDevices : List MicDevice := []
  deviceId : Option String := none
  audioTrack : Option Track := none
  mediaStream : Option MediaStream := none
deriving DecidableEq

/-- Everything outside the manager instance that its methods read or
write: the settings store, the mixing subsystem, the events emitted on
the scene, and bookkeeping of which track ids were ever adopted by the
manager, explicitly stopped (`track.stop()`), or externally ended. -/
structure World where
  store : Store := {}
  audioSystem : AudioSystem := {}
  emitted : List String := []
  stoppedTracks : List Nat := []
  endedTracks : List Nat := []
  acquiredTracks : List Nat := []
deriving DecidableEq

/-- Method `micLabelForAudioTrack`: `(audioTrack && audioTrack.label) || ""`. -/
def micLabelForAudioTrack (audioTrack : Option Track) : String :=
  match audioTrack with
  | some t => t.label
  | none => ""

/-- Method `micDeviceIdForMicLabel`: filter the cached devices by label,
map to `value`, take element 0 (which is `none` when no device
matches). -/
def micDeviceIdForMicLabel (micDevices : List MicDevice) (label : String) :
    Option String :=
  ((micDevices.filter (fun d => d.label == label)).map (fun d => d.value)).head?

/-- Getter `selectedMicLabel`. -/
def selectedMicLabel (m : AudioManager) : String :=
  micLabelForAudioTrack m.audioTrack

/-- Getter `selectedMicDeviceId`: recomputed from the active track's label
on every read; nothing is stored. -/
def selectedMicDeviceId (m : AudioManager) : Option String :=
  micDeviceIdForMicLabel m.micDevices (selectedMicLabel m)

/-- One raw device mapped as in `fetchMicDevices`:
`\x7bvalue: d.deviceId, label: d.label || Mic (id-prefix)\x7d` where the
fallback label truncates the id to 9 characters. -/
def micDeviceOfRaw (d : RawDevice) : MicDevice :=
  { value := d.deviceId,
    label := if d.label = "" then "Mic (" ++ d.deviceId.take 9 ++ ")" else d.label }

/-- The device list `fetchMicDevices` caches for a given enumeration
answer: filter to `kind === "audioinput"`, then map. -/
def micDevicesOfRaw (raw : List RawDevice) : List MicDevice :=
  (raw.filter (fun d => d.kind == "audioinput")).map micDeviceOfRaw

/-- Method `fetchMicDevices()`, with the enumeration answer passed in. -/
def fetchMicDevices (raw : List RawDevice) (m : AudioManager) : AudioManager :=
  { m with micDevices := micDevicesOfRaw raw }

/-- Lines 110-129 of `fetchAudioTrack`: write the three processing
toggles into `constraints.audio` from the stored preferences
(`effective = disableFlag === true ? false : true`), and on Firefox
Reality invert the polarity (`effective = disableFlag === false`) and
write the corrected flags back into the preference store.  Returns the
mutated constraints and the resulting preference state. -/
def applyPrefConstraints (ffr : Bool) (prefs : Preferences) (c : Constraints) :
    Constraints × Preferences :=
  if ffr then
    let e := if prefs.disableEchoCancellation = some false then true else false
    let n := if prefs.disableNoiseSuppression = some false then true else false
    let a := if prefs.disableAutoGainControl = some false then true else false
    ({ c with audio := { c.audio with
        echoCancellation := some e, noiseSuppression := some n, autoGainControl := some a } },
     { disableEchoCancellation := some (!e),
       disableNoiseSuppression := some (!n),
       disableAutoGainControl := some (!a) })
  else
    let e := if prefs.disableEchoCancellation = some true then false else true
    let n := if prefs.disableNoiseSuppression = some true then false else true
    let a := if prefs.disableAutoGainControl = some true then false else true
    ({ c with audio := { c.audio with
        echoCancellation := some e, noiseSuppression := some n, autoGainControl := some a } },
     prefs)

/-- The outcome of one `fetchAudioTrack` call: its boolean return value,
the manager and world afterwards, the constraints object as passed to
`getUserMedia` (i.e. after the in-place toggle mutation), and the
constraints captured by the Oculus recovery listener when one was armed
on the new track (`none` when no listener was armed). -/
structure FetchResult where
  success : Bool
  mgr : AudioManager
  world : World
  requested : Constraints
  armed : Option Constraints
deriving DecidableEq

/-- Method `fetchAudioTrack(constraints)`, with the getUserMedia answer for
this call passed as `gum` (`none` models a rejection, e.g. permission
denial).  Faithful points: the previous track is stopped before the new
request; the toggle mutation and the Firefox Reality store write-back
happen before the request; on success `mediaStream` is set to the
mixing subsystem's outbound stream and `audioTrack` to
`newStream.getAudioTracks()[0]`; on the Oculus user agent a one-shot
`ended` listener capturing the mutated constraints is armed on the new
track (when the stream has no track, `addEventListener` on `undefined`
throws inside the `try`, so the call is caught and returns `false` with
`audioTrack` cleared); on rejection `audioTrack` is cleared, the
return value is `false`, and `mediaStream` is left untouched. -/
def fetchAudioTrack (p : Platform) (gum : Option MediaStream)
    (constraints : Constraints) (m : AudioManager) (w : World) : FetchResult :=
  let w0 := match m.audioTrack with
    | some t => { w with stoppedTracks := t.id :: w.stoppedTracks }
    | none => w
  let cp := applyPrefConstraints p.isFirefoxReality w0.store.preferences constraints
  let w1 := { w0 with store := { w0.store with preferences := cp.2 } }
  match gum with
  | none =>
    { success := false, mgr := { m with audioTrack := none },
      world := w1, requested := cp.1, armed := none }
  | some newStream =>
    let asys := w1.audioSystem.addStreamToOutboundAudio "microphone" newStream
    let w2 := { w1 with
                audioSystem := asys,
                acquiredTracks := (newStream.tracks.head?.map Track.id).toList ++ w1.acquiredTracks }
    match newStream.tracks.head? with
    | some t =>
      { success := true,
        mgr := { m with mediaStream := asys.outboundStream, audioTrack := some t },
        world := w2, requested := cp.1,
        armed := if p.oculusUA then some cp.1 else none }
    | none =>
      if p.oculusUA then
        { success := false,
          mgr := { m with mediaStream := asys.outboundStream, audioTrack := none },
          world := w2, requested := cp.1, armed := none }
      else
        { success := true,
          mgr := { m with mediaStream := asys.outboundStream, audioTrack := none },
          world := w2, requested := cp.1, armed := none }

/-- The outcome of one run of the `recreateAudioStream` closure. -/
structure RecreateResult where
  mgr : AudioManager
  world : World
  requested : Constraints
  armed : Option Constraints
deriving DecidableEq

/-- The Oculus `recreateAudioStream` closure: re-request a stream with
the captured constraints `c`, adopt its first track, re-register the
stream with the mixing subsystem under "microphone", emit
`local-media-stream-created`, and re-arm the one-shot listener on the
new track.  A getUserMedia rejection aborts the closure (unhandled
rejection), so nothing is re-armed.  An empty-track stream leaves
`audioTrack` undefined and the final `addEventListener` throws after
the emit, so nothing is re-armed in that case either. -/
def recreateAudioStream (c : Constraints) (gum : Option MediaStream)
    (m : AudioManager) (w : World) : RecreateResult :=
  match gum with
  | none => { mgr := m, world := w, requested := c, armed := none }
  | some newStream =>
    let asys := w.audioSystem.addStreamToOutboundAudio "microphone" newStream
    let w1 := { w with
                audioSystem := asys,
                emitted := "local-media-stream-created" :: w.emitted,
                acquiredTracks := (newStream.tracks.head?.map Track.id).toList ++ w.acquiredTracks }
    match newStream.tracks.head? with
    | some t => { mgr := { m with audioTrack := some t }, world := w1,
                  requested := c, armed := some c }
    | none => { mgr := { m with audioTrack := none }, world := w1,
                requested := c, armed := none }

/-- The manager together with its armed recovery listener (the captured
constraints, when a one-shot `ended` listener is attached to the
current track) and a count of how many recovery re-requests have been
issued. -/
structure HookState where
  mgr : AudioManager
  world : World
  armed : Option Constraints
  refetches : Nat
deriving DecidableEq

/-- The state just after a `fetchAudioTrack` call, with no recovery
re-request issued yet. -/
def hookAfterFetch (f : FetchResult) : HookState :=
  { mgr := f.mgr, world := f.world, armed := f.armed, refetches := 0 }

/-- The current track fires its `ended` event from an external cause.
If a listener is armed it is consumed (`once: true`) and the
`recreateAudioStream` closure runs with its captured constraints; the
ended track is recorded.  With no listener armed nothing happens. -/
def handleTrackEnded (gum : Option MediaStream) (s : HookState) : HookState :=
  match s.armed with
  | none => s
  | some c =>
    let w := match s.mgr.audioTrack with
      | some t => { s.world with endedTracks := t.id :: s.world.endedTracks }
      | none => s.world
    let r := recreateAudioStream c gum s.mgr w
    { mgr := r.mgr, world := r.world, armed := r.armed, refetches := s.refetches + 1 }

/-- An explicit `track.stop()` on the current track.  Per the source
comment on line 141, the `ended` event does not fire for an explicit
stop, so the recovery closure never runs here: only the stop is
recorded. -/
def handleExplicitStop (s : HookState) : HookState :=
  match s.mgr.audioTrack with
  | some t => { s with world := { s.world with stoppedTracks := t.id :: s.world.stoppedTracks } }
  | none => s

/-- Method `setupNewMediaStream()`: refresh the device cache, then, when a
track is active, look its device id up by label; a truthy id (neither
absent nor the empty string) is persisted as `lastUsedMicDeviceId`
(a shallow-merge store update), and `local-media-stream-created` is
emitted whenever a track is active.  With no active track nothing is
written and nothing is emitted. -/
def setupNewMediaStream (raw : List RawDevice) (m : AudioManager) (w : World) :
    AudioManager × World :=
  let m1 := fetchMicDevices raw m
  match m1.audioTrack with
  | some _ =>
    let micDeviceId := micDeviceIdForMicLabel m1.micDevices (micLabelForAudioTrack m1.audioTrack)
    let w1 := match micDeviceId with
      | some id =>
        if id = "" then w
        else { w with store := { w.store with settings := { lastUsedMicDeviceId := some id } } }
      | none => w
    (m1, { w1 with emitted := "local-media-stream-created" :: w1.emitted })
  | none => (m1, w)

/-- The outcome of `selectMicDevice` / `setMediaStreamToDefault`. -/
structure SelectResult where
  result : Bool
  mgr : AudioManager
  world : World
  requested : Constraints
deriving DecidableEq

/-- Method `selectMicDevice(deviceId)`: build an exact-device constraint, run
`fetchAudioTrack`, then run `setupNewMediaStream` unconditionally, and
return the fetch's flag. -/
def selectMicDevice (p : Platform) (gum : Option MediaStream) (raw : List RawDevice)
    (deviceId : String) (m : AudioManager) (w : World) : SelectResult :=
  let c : Constraints := { audio := { deviceId := some (DeviceIdClause.exact [deviceId]) } }
  let f := fetchAudioTrack p gum c m w
  let r := setupNewMediaStream raw f.mgr f.world
  { result := f.success, mgr := r.1, world := r.2, requested := f.requested }

/-- The constraints `setMediaStreamToDefault` builds before merging in
the preference toggles: an `ideal` clause when a truthy
`lastUsedMicDeviceId` is stored (JavaScript truthiness: the empty
string counts as absent), otherwise `\x7baudio: \x7b\x7d\x7d`. -/
def defaultSessionConstraints (settings : Settings) : Constraints :=
  match settings.lastUsedMicDeviceId with
  | some id =>
    if id = "" then { audio := {} }
    else { audio := { deviceId := some (DeviceIdClause.ideal id) } }
  | none => { audio := {} }

/-- Method `setMediaStreamToDefault()`: fetch with the default-session
constraints, then run `setupNewMediaStream` unconditionally; the
returned flag is the `hasAudio` member of the result object. -/
def setMediaStreamToDefault (p : Platform) (gum : Option MediaStream)
    (raw : List RawDevice) (m : AudioManager) (w : World) : SelectResult :=
  let c := defaultSessionConstraints w.store.settings
  let f := fetchAudioTrack p gum c m w
  let r := setupNewMediaStream raw f.mgr f.world
  { result := f.success, mgr := r.1, world := r.2, requested := f.requested }

/-- JavaScript `\w` (ASCII letters, digits, underscore). -/
def isWordChar (c : Char) : Bool :=
  c.isAlphanum || c == '_'

/-- Case-insensitive literal match of `pat` against a prefix of the
character list; returns the remainder on success. -/
def matchesPatAt : List Char → List Char → Option (List Char)
  | [], rest => some rest
  | _ :: _, [] => none
  | p :: ps, c :: cs => if c.toLower == p.toLower then matchesPatAt ps cs else none

/-- Search for an occurrence of non-word-char, `pat`
(case-insensitively), non-word-char — the semantics of the source
regular expressions, which require an actual non-word character on each
side of the literal (not a word boundary). -/
def hmdPatternSearch (pat : List Char) : List Char → Bool
  | [] => false
  | c :: cs =>
    ((!isWordChar c) &&
      (match matchesPatAt pat cs with
       | some (c2 :: _) => !isWordChar c2
       | some [] => false
       | none => false)) || hmdPatternSearch pat cs

/-- Search `label.match(regex)` converted to a Bool, for one HMD pattern. -/
def labelMatchesHmdRegex (pat : String) (label : String) : Bool :=
  hmdPatternSearch pat.data label.data

/-- The literals of `HMD_MIC_REGEXES`. -/
def HMD_MIC_PATTERNS : List String := ["vive", "rift"]

/-- Whether a label matches any element of `HMD_MIC_REGEXES`. -/
def labelMatchesAnyHmdRegex (label : String) : Bool :=
  HMD_MIC_PATTERNS.any (fun pat => labelMatchesHmdRegex pat label)

/-- Modelled from the spec: the `this.state` object read by
`shouldShowHmdMicWarning` and `hasHmdMicrophone` is not defined
anywhere under src/; per the spec it carries the caller's session
configuration (whether the session will enter an immersive mode) and
the device directory consulted by the advisory. -/
structure CallerSessionState where
  enterInVR : Bool
  micDevices : List MicDevice
deriving DecidableEq

/-- Method `hasHmdMicrophone()`: some device in the directory matches an HMD
pattern. -/
def hasHmdMicrophone (st : CallerSessionState) : Bool :=
  st.micDevices.any (fun d => labelMatchesAnyHmdRegex d.label)

/-- Method `shouldShowHmdMicWarning()`: false on mobile or mobile VR, false
when the session will not enter VR, false when no directory device
matches an HMD pattern; otherwise true exactly when the selected mic
label matches none of the patterns. -/
def shouldShowHmdMicWarning (p : Platform) (st : CallerSessionState)
    (m : AudioManager) : Bool :=
  if p.isMobile || p.isMobileVR then false
  else if !st.enterInVR then false
  else if !hasHmdMicrophone st then false
  else !labelMatchesAnyHmdRegex (selectedMicLabel m)

/-- One `fetchAudioTrack` call folded into a `HookState` (the armed
listener is replaced by whatever the fetch arms; the recovery counter
is untouched). -/
def fetchStep (p : Platform) (c : Constraints) (gum : Option MediaStream)
    (s : HookState) : HookState :=
  let f := fetchAudioTrack p gum c s.mgr s.world
  { mgr := f.mgr, world := f.world, armed := f.armed, refetches := s.refetches }

/-- The manager as constructed: empty device cache, no track, no
stream, nothing armed. -/
def initState (store : Store) : HookState :=
  { mgr := {}, world := { store := store }, armed := none, refetches := 0 }

/-- The states reachable from a freshly constructed manager by
`fetchAudioTrack` calls (with any constraints and any provider answer)
and externally-ended recovery runs. -/
inductive Reach (p : Platform) : HookState → Prop where
  | init (store : Store) : Reach p (initState store)
  | fetch {s : HookState} (c : Constraints) (gum : Option MediaStream) :
      Reach p s → Reach p (fetchStep p c gum s)
  | ended {s : HookState} (gum : Option MediaStream) :
      Reach p s → Reach p (handleTrackEnded gum s)

/-- Every track the manager ever adopted, other than the one it holds
now, has been explicitly stopped or has externally ended: the manager
never holds two live captures. -/
def HeldDead (s : HookState) : Prop :=
  ∀ id ∈ s.world.acquiredTracks,
    s.mgr.audioTrack.map Track.id ≠ some id →
    id ∈ s.world.stoppedTracks ∨ id ∈ s.world.endedTracks

/- Concrete instances used to exercise the model. -/

/-- A desktop platform: not mobile, not mobile VR, no special user agent. -/
def pDesktop : Platform := ⟨false, false, false, false⟩

/-- A desktop platform whose user agent matches `Oculus`. -/
def pOculus : Platform := ⟨false, false, false, true⟩

/-- A first capture stream handed out by the provider. -/
def stream1 : MediaStream := ⟨1, [⟨1, "BuiltIn Mic"⟩]⟩

/-- A second capture stream handed out by the provider. -/
def stream2 : MediaStream := ⟨2, [⟨2, "BuiltIn Mic"⟩]⟩

/-- A third capture stream handed out by the provider. -/
def stream3 : MediaStream := ⟨3, [⟨3, "BuiltIn Mic"⟩]⟩

/-- The bare constraints object callers pass when no device is pinned. -/
def emptyConstraints : Constraints := { audio := {} }

/-- An enumeration answer with one audio input and one video input. -/
def rawDirectory : List RawDevice :=
  [⟨"id1", "audioinput", "BuiltIn Mic"⟩, ⟨"id2", "videoinput", "Cam"⟩]

/-- The device directory of the spec's HMD-advisory example. -/
def viveDirectory : List MicDevice :=
  [⟨"id1", "Vive Pro Mic"⟩, ⟨"id2", "Generic Mic"⟩]

/-- A directory whose first label has the HMD literal surrounded by
non-word characters, so it really matches `HMD_MIC_REGEXES`. -/
def viveParenDirectory : List MicDevice :=
  [⟨"id1", "Mic (Vive)"⟩, ⟨"id2", "Generic Mic"⟩]

/-- Caller session state: will enter VR, sees `viveDirectory`. -/
def sessionVive : CallerSessionState := ⟨true, viveDirectory⟩

/-- Caller session state: will enter VR, sees `viveParenDirectory`. -/
def sessionViveParen : CallerSessionState := ⟨true, viveParenDirectory⟩

/-- A manager whose active track is the generic microphone. -/
def mgrGeneric : AudioManager := { audioTrack := some ⟨5, "Generic Mic"⟩ }

/-- A manager whose active track is the parenthesised Vive microphone. -/
def mgrViveParen : AudioManager := { audioTrack := some ⟨5, "Mic (Vive)"⟩ }

/-- A store holding a last-used microphone device id. -/
def storeMic42 : Store := { settings := { lastUsedMicDeviceId := some "mic-42" } }

/-- A world whose settings hold the last-used device id "mic-42". -/
def wMic42 : World := { store := storeMic42 }

/-- Value of `emptyConstraints` after the toggle mutation under default
preferences on a non-Firefox-Reality platform. -/
def mutatedEmptyConstraints : Constraints :=
  { audio := { echoCancellation := some true, noiseSuppression := some true, autoGainControl := some true } }

/- Helper lemmas shared by several claims. -/

/-- The toggle mutation never touches the device-selection clause. -/
theorem applyPrefConstraints_deviceId (ffr : Bool) (prefs : Preferences)
    (c : Constraints) :
    (applyPrefConstraints ffr prefs c).1.audio.deviceId = c.audio.deviceId := by
  unfold applyPrefConstraints
  split <;> rfl

/-- Whatever the provider answers, the constraints passed to
`getUserMedia` are the caller's constraints after the toggle mutation
against the pre-call preference state. -/
theorem fetchAudioTrack_requested (p : Platform) (gum : Option MediaStream)
    (c : Constraints) (m : AudioManager) (w : World) :
    (fetchAudioTrack p gum c m w).requested
      = (applyPrefConstraints p.isFirefoxReality w.store.preferences c).1 := by
  unfold fetchAudioTrack
  cases m.audioTrack <;> cases gum <;> simp
  all_goals cases hh : MediaStream.tracks _ |>.head? <;> simp [hh]
  all_goals cases p.oculusUA <;> simp

/-- Housekeeping always leaves the refreshed directory in the cache. -/
theorem setupNewMediaStream_micDevices (raw : List RawDevice)
    (m : AudioManager) (w : World) :
    (setupNewMediaStream raw m w).1.micDevices = micDevicesOfRaw raw := by
  unfold setupNewMediaStream fetchMicDevices
  cases m.audioTrack <;> simp

/-- C3: on the exception platform (mobile-VR Firefox) the constraint
builder enables each of the three toggles only if its disable flag is
explicitly false (an absent `disableEchoCancellation` yields
`echoCancellation = false`), writes `disableFlag = not(effective)` back
into the preference store, and re-running the builder on the resulting
constraints and preferences yields the same constraints and the same
stored preferences. -/
theorem c3_firefox_reality_inversion_idempotent (prefs : Preferences) (c : Constraints) :
    (applyPrefConstraints true prefs c).1.audio.echoCancellation
      = some (decide (prefs.disableEchoCancellation = some false)) ∧
    (applyPrefConstraints true prefs c).1.audio.noiseSuppression
      = some (decide (prefs.disableNoiseSuppression = some false)) ∧
    (applyPrefConstraints true prefs c).1.audio.autoGainControl
      = some (decide (prefs.disableAutoGainControl = some false)) ∧
    (applyPrefConstraints true prefs c).2.disableEchoCancellation
      = some (!(decide (prefs.disableEchoCancellation = some false))) ∧
    (applyPrefConstraints true prefs c).2.disableNoiseSuppression
      = some (!(decide (prefs.disableNoiseSuppression = some false))) ∧
    (applyPrefConstraints true prefs c).2.disableAutoGainControl
      = some (!(decide (prefs.disableAutoGainControl = some false))) ∧
    applyPrefConstraints true (applyPrefConstraints true prefs c).2
        (applyPrefConstraints true prefs c).1
      = applyPrefConstraints true prefs c := by
  rcases prefs with ⟨de, dn, da⟩
  rcases de with _ | _ | _ <;> rcases dn with _ | _ | _ <;> rcases da with _ | _ | _ <;>
    simp [applyPrefConstraints]

/-- C1 counterexample: a successful fetch followed by a failed fetch
(permission denial) is a reachable state in which `audioTrack` is empty
while `mediaStream` is still non-empty — the claimed iff coupling, and
in particular "both are empty after any failure", does not hold. -/
theorem c1_coupling_counterexample :
    (fetchAudioTrack pDesktop none emptyConstraints
        (fetchAudioTrack pDesktop (some stream1) emptyConstraints {} {}).mgr
        (fetchAudioTrack pDesktop (some stream1) emptyConstraints {} {}).world).mgr.audioTrack
      = none ∧
    (fetchAudioTrack pDesktop none emptyConstraints
        (fetchAudioTrack pDesktop (some stream1) emptyConstraints {} {}).mgr
        (fetchAudioTrack pDesktop (some stream1) emptyConstraints {} {}).world).mgr.mediaStream
      ≠ none := by
  decide

/-- C1 amended: a failed fetch clears `audioTrack` but leaves
`mediaStream` untouched, so the iff coupling holds initially and after
every successful fetch that delivers a track, but not after a failure
that follows a success. -/
theorem c1_coupling_amended (p : Platform) (gum : Option MediaStream)
    (c : Constraints) (m : AudioManager) (w : World) :
    (gum = none →
      (fetchAudioTrack p gum c m w).mgr.audioTrack = none ∧
      (fetchAudioTrack p gum c m w).mgr.mediaStream = m.mediaStream) ∧
    (∀ s t, gum = some s → s.tracks.head? = some t →
      (fetchAudioTrack p gum c m w).mgr.audioTrack = some t ∧
      (fetchAudioTrack p gum c m w).mgr.mediaStream.isSome = true) := by
  constructor
  · rintro rfl
    cases hm : m.audioTrack <;> simp [fetchAudioTrack, hm]
  · rintro s t rfl ht
    cases hm : m.audioTrack <;>
      simp [fetchAudioTrack, hm, ht, AudioSystem.addStreamToOutboundAudio]

/-- Witness for the amended C1 at a concrete successful fetch. -/
theorem c1_coupling_amended_witness :
    (fetchAudioTrack pDesktop (some stream1) emptyConstraints {} {}).mgr.audioTrack
      = some ⟨1, "BuiltIn Mic"⟩ ∧
    (fetchAudioTrack pDesktop (some stream1) emptyConstraints {} {}).mgr.mediaStream.isSome
      = true :=
  (c1_coupling_amended pDesktop (some stream1) emptyConstraints {} {}).2
    stream1 ⟨1, "BuiltIn Mic"⟩ rfl rfl

/-- C2 counterexample: the source patterns require a non-word character
on each side of "vive"/"rift", so the label "Vive Pro Mic" — which
starts with the literal — matches no pattern.  With the claim's own
example directory no device matches, `hasHmdMicrophone` is false, and
the advisory returns false for the selected label "Generic Mic" where
the claim says it returns true. -/
theorem c2_hmd_warning_counterexample :
    labelMatchesAnyHmdRegex "Vive Pro Mic" = false ∧
    hasHmdMicrophone sessionVive = false ∧
    shouldShowHmdMicWarning pDesktop sessionVive mgrGeneric = false := by
  decide

/-- C2 amended: the advisory returns false on a handheld or mobile-VR
platform, when the session will not enter an immersive mode, or when no
directory label contains "vive"/"rift" case-insensitively with an
actual non-word character on both sides (a label merely beginning with
"Vive" matches nothing); otherwise it returns true exactly when the
selected label matches none of those patterns. -/
theorem c2_hmd_warning_amended (p : Platform) (st : CallerSessionState)
    (m : AudioManager) :
    ((p.isMobile || p.isMobileVR) = true →
      shouldShowHmdMicWarning p st m = false) ∧
    (st.enterInVR = false → shouldShowHmdMicWarning p st m = false) ∧
    (hasHmdMicrophone st = false → shouldShowHmdMicWarning p st m = false) ∧
    ((p.isMobile || p.isMobileVR) = false → st.enterInVR = true →
      hasHmdMicrophone st = true →
      shouldShowHmdMicWarning p st m
        = !labelMatchesAnyHmdRegex (selectedMicLabel m)) := by
  unfold shouldShowHmdMicWarning
  refine ⟨fun h => ?_, fun h => ?_, fun h => ?_, fun h1 h2 h3 => ?_⟩ <;>
    simp_all

/-- Witness for the amended C2: with a directory whose first label is
"Mic (Vive)" the advisory warns when "Generic Mic" is selected and is
quiet when "Mic (Vive)" is selected. -/
theorem c2_hmd_warning_amended_witness :
    hasHmdMicrophone sessionViveParen = true ∧
    shouldShowHmdMicWarning pDesktop sessionViveParen mgrGeneric = true ∧
    shouldShowHmdMicWarning pDesktop sessionViveParen mgrViveParen = false := by
  refine ⟨by decide, ?_, ?_⟩
  · rw [(c2_hmd_warning_amended pDesktop sessionViveParen mgrGeneric).2.2.2
      (by decide) (by decide) (by decide)]
    decide
  · rw [(c2_hmd_warning_amended pDesktop sessionViveParen mgrViveParen).2.2.2
      (by decide) (by decide) (by decide)]
    decide

/-- On the Oculus user agent, a fetch whose stream carries a track arms
the one-shot listener with the very constraints that were requested,
and adopts the stream's first track. -/
theorem fetchAudioTrack_oculus_success (p : Platform) (s1 : MediaStream)
    (c : Constraints) (m : AudioManager) (w : World) (t1 : Track)
    (hp : p.oculusUA = true) (h1 : s1.tracks.head? = some t1) :
    (fetchAudioTrack p (some s1) c m w).armed
      = some (fetchAudioTrack p (some s1) c m w).requested ∧
    (fetchAudioTrack p (some s1) c m w).mgr.audioTrack = some t1 := by
  unfold fetchAudioTrack
  cases hm : m.audioTrack <;> simp [hm, h1, hp]

/-- One armed recovery round in closed form: the listener is consumed,
the closure re-requests, adopts the new first track, re-registers the
stream under "microphone", emits the notification, records the ended
track, and re-arms with the same captured constraints. -/
theorem handleTrackEnded_eq (s : HookState) (cc : Constraints)
    (st : MediaStream) (t0 tn : Track)
    (ha : s.armed = some cc) (hcur : s.mgr.audioTrack = some t0)
    (hh : st.tracks.head? = some tn) :
    handleTrackEnded (some st) s =
      { mgr := { s.mgr with audioTrack := some tn },
        world := { s.world with
          audioSystem := s.world.audioSystem.addStreamToOutboundAudio "microphone" st,
          emitted := "local-media-stream-created" :: s.world.emitted,
          endedTracks := t0.id :: s.world.endedTracks,
          acquiredTracks := tn.id :: s.world.acquiredTracks },
        armed := some cc, refetches := s.refetches + 1 } := by
  unfold handleTrackEnded recreateAudioStream
  rw [ha, hcur]
  simp [hh]

/-- C4: on the Oculus user agent every successful fetch arms a one-shot
listener (capturing the request constraints); a first external end
triggers exactly one re-request, registers the new stream with the
mixing subsystem under "microphone", emits the stream-created
notification, adopts the new track, and re-arms with the same captured
constraints; a second external end triggers recovery again; an explicit
stop triggers nothing. -/
theorem c4_oculus_recovery_rearm (p : Platform) (c : Constraints)
    (m : AudioManager) (w : World) (s1 s2 s3 : MediaStream) (t1 t2 t3 : Track)
    (f : FetchResult) (e1 e2 : HookState)
    (hp : p.oculusUA = true)
    (h1 : s1.tracks.head? = some t1) (h2 : s2.tracks.head? = some t2)
    (h3 : s3.tracks.head? = some t3)
    (hf : f = fetchAudioTrack p (some s1) c m w)
    (he1 : e1 = handleTrackEnded (some s2) (hookAfterFetch f))
    (he2 : e2 = handleTrackEnded (some s3) e1) :
    f.armed = some f.requested ∧
    e1.refetches = 1 ∧
    e1.world.audioSystem.channels.head? = some ("microphone", s2) ∧
    e1.world.emitted = "local-media-stream-created" :: f.world.emitted ∧
    e1.armed = some f.requested ∧
    e1.mgr.audioTrack = some t2 ∧
    e2.refetches = 2 ∧
    e2.world.audioSystem.channels.head? = some ("microphone", s3) ∧
    e2.armed = some f.requested ∧
    e2.mgr.audioTrack = some t3 ∧
    (handleExplicitStop e1).refetches = e1.refetches ∧
    (handleExplicitStop e1).armed = e1.armed ∧
    (handleExplicitStop e1).world.emitted = e1.world.emitted := by
  subst hf he1 he2
  obtain ⟨ha, hcur⟩ :=
    fetchAudioTrack_oculus_success p s1 c m w t1 hp h1
  generalize hF : fetchAudioTrack p (some s1) c m w = F at ha hcur ⊢
  simp [handleTrackEnded, recreateAudioStream, hookAfterFetch, handleExplicitStop,
    AudioSystem.addStreamToOutboundAudio, ha, hcur, h2, h3]

/-- Witness for C4: two consecutive external ends on the Oculus
platform each trigger exactly one recovery re-request. -/
theorem c4_oculus_recovery_rearm_witness :
    (handleTrackEnded (some stream2)
        (hookAfterFetch (fetchAudioTrack pOculus (some stream1) emptyConstraints {} {}))).refetches
      = 1 ∧
    (handleTrackEnded (some stream3)
        (handleTrackEnded (some stream2)
          (hookAfterFetch (fetchAudioTrack pOculus (some stream1) emptyConstraints {} {})))).refetches
      = 2 := by
  have h := c4_oculus_recovery_rearm pOculus emptyConstraints {} {}
    stream1 stream2 stream3 ⟨1, "BuiltIn Mic"⟩ ⟨2, "BuiltIn Mic"⟩ ⟨3, "BuiltIn Mic"⟩
    (fetchAudioTrack pOculus (some stream1) emptyConstraints {} {})
    (handleTrackEnded (some stream2)
      (hookAfterFetch (fetchAudioTrack pOculus (some stream1) emptyConstraints {} {})))
    (handleTrackEnded (some stream3)
      (handleTrackEnded (some stream2)
        (hookAfterFetch (fetchAudioTrack pOculus (some stream1) emptyConstraints {} {}))))
    rfl rfl rfl rfl rfl rfl rfl
  exact ⟨h.2.1, h.2.2.2.2.2.2.1⟩

/-- Preservation of the single-live-capture invariant by one
`fetchAudioTrack` call: whatever the provider answers, any previously
adopted track other than the new current one is stopped or ended. -/
theorem heldDead_fetchStep (p : Platform) (c : Constraints) (gum : Option MediaStream)
    (s : HookState) (h : HeldDead s) : HeldDead (fetchStep p c gum s) := by
  intro id hid hcur
  rcases hm : s.mgr.audioTrack with _ | t <;>
    rcases gum with _ | st <;>
      simp only [fetchStep, fetchAudioTrack, hm] at hid hcur ⊢
  · exact h id hid (by simp [hm])
  · rcases hh : st.tracks.head? with _ | tn <;>
      simp [hh] at hid hcur ⊢
    · cases hoc : p.oculusUA <;> simp [hoc] at hid hcur ⊢
      · exact h id hid (by simp [hm])
      · exact h id hid (by simp [hm])
    · rcases hid with rfl | hid
      · exact absurd rfl hcur
      · exact h id hid (by simp [hm])
  · by_cases hit : id = t.id
    · simp [hit]
    · have := h id hid (by simp [hm]; intro e; exact hit e.symm)
      tauto
  · rcases hh : st.tracks.head? with _ | tn <;>
      simp [hh] at hid hcur ⊢
    · cases hoc : p.oculusUA <;> simp [hoc] at hid hcur ⊢
      · by_cases hit : id = t.id
        · simp [hit]
        · have := h id hid (by simp [hm]; intro e; exact hit e.symm)
          tauto
      · by_cases hit : id = t.id
        · simp [hit]
        · have := h id hid (by simp [hm]; intro e; exact hit e.symm)
          tauto
    · rcases hid with rfl | hid
      · exact absurd rfl hcur
      · by_cases hit : id = t.id
        · simp [hit]
        · have := h id hid (by simp [hm]; intro e; exact hit e.symm)
          tauto

/-- Preservation of the single-live-capture invariant by an external
track end: the ended track is recorded dead and the recovery closure's
replacement (when any) becomes the single current track. -/
theorem heldDead_handleTrackEnded (gum : Option MediaStream) (s : HookState)
    (h : HeldDead s) : HeldDead (handleTrackEnded gum s) := by
  intro id hid hcur
  rcases ha : s.armed with _ | cc
  · simp only [handleTrackEnded, ha] at hid hcur ⊢
    exact h id hid hcur
  · rcases hm : s.mgr.audioTrack with _ | t <;> rcases gum with _ | st <;>
      simp only [handleTrackEnded, recreateAudioStream, ha, hm] at hid hcur ⊢
    · exact h id hid (by simp [hm])
    · rcases hh : st.tracks.head? with _ | tn <;>
        simp [hh] at hid hcur ⊢
      · exact h id hid (by simp [hm])
      · rcases hid with rfl | hid
        · exact absurd rfl hcur
        · exact h id hid (by simp [hm])
    · have := h id hid (by simpa [hm] using hcur)
      tauto
    · rcases hh : st.tracks.head? with _ | tn <;>
        simp [hh] at hid hcur ⊢
      · by_cases hit : id = t.id
        · simp [hit]
        · have := h id hid (by simp [hm]; intro e; exact hit e.symm)
          tauto
      · rcases hid with rfl | hid
        · exact absurd rfl hcur
        · by_cases hit : id = t.id
          · simp [hit]
          · have := h id hid (by simp [hm]; intro e; exact hit e.symm)
            tauto

/-- C5: a `fetchAudioTrack` call that finds an active track stops
exactly that one track before requesting a new capture (the stop list
grows by exactly its id), and in every reachable state each track the
manager ever adopted, other than the current one, has been stopped or
has externally ended — the manager never holds two live captures. -/
theorem c5_single_live_capture :
    (∀ (p : Platform) (s : HookState), Reach p s → HeldDead s) ∧
    (∀ (p : Platform) (gum : Option MediaStream) (c : Constraints)
        (m : AudioManager) (w : World) (t : Track), m.audioTrack = some t →
        (fetchAudioTrack p gum c m w).world.stoppedTracks = t.id :: w.stoppedTracks) := by
  constructor
  · intro p s hr
    induction hr with
    | init store => intro id hid hcur; simp [initState] at hid
    | fetch c gum _ ih => exact heldDead_fetchStep _ _ _ _ ih
    | ended gum _ ih => exact heldDead_handleTrackEnded _ _ ih
  · intro p gum c m w t ht
    unfold fetchAudioTrack
    rcases gum with _ | st <;> simp [ht]
    rcases hh : st.tracks.head? with _ | tn <;> simp [hh]
    cases p.oculusUA <;> simp

/-- Witness for C5: a concrete reachable state satisfies the invariant,
and a concrete fetch over an active track stops exactly that track. -/
theorem c5_single_live_capture_witness :
    HeldDead (fetchStep pDesktop emptyConstraints (some stream1) (initState {})) ∧
    (fetchAudioTrack pDesktop none emptyConstraints
        { audioTrack := some ⟨7, "Old Mic"⟩ } {}).world.stoppedTracks
      = (⟨7, "Old Mic"⟩ : Track).id :: ({} : World).stoppedTracks :=
  ⟨c5_single_live_capture.1 pDesktop _
      (Reach.fetch emptyConstraints (some stream1) (Reach.init {})),
   c5_single_live_capture.2 pDesktop none emptyConstraints
     { audioTrack := some ⟨7, "Old Mic"⟩ } {} ⟨7, "Old Mic"⟩ rfl⟩

/-- C6: `setMediaStreamToDefault` requests with an ideal (soft) device
clause when a last-used device id is stored, with no device clause at
all when none is stored, always runs the post-selection housekeeping
(device cache refreshed in every case), and returns the fetch's
success flag as `hasAudio`. -/
theorem c6_default_session (p : Platform) (gum : Option MediaStream)
    (raw : List RawDevice) (m : AudioManager) (w : World) :
    (∀ id, w.store.settings.lastUsedMicDeviceId = some id → id ≠ "" →
      (setMediaStreamToDefault p gum raw m w).requested.audio.deviceId
        = some (DeviceIdClause.ideal id)) ∧
    (w.store.settings.lastUsedMicDeviceId = none →
      (setMediaStreamToDefault p gum raw m w).requested.audio.deviceId = none) ∧
    (setMediaStreamToDefault p gum raw m w).result
      = (fetchAudioTrack p gum (defaultSessionConstraints w.store.settings) m w).success ∧
    (setMediaStreamToDefault p gum raw m w).mgr.micDevices = micDevicesOfRaw raw := by
  refine ⟨?_, ?_, rfl, ?_⟩
  · intro id hid hne
    show (fetchAudioTrack p gum (defaultSessionConstraints w.store.settings) m w).requested.audio.deviceId = _
    rw [fetchAudioTrack_requested, applyPrefConstraints_deviceId]
    simp [defaultSessionConstraints, hid, hne]
  · intro hid
    show (fetchAudioTrack p gum (defaultSessionConstraints w.store.settings) m w).requested.audio.deviceId = _
    rw [fetchAudioTrack_requested, applyPrefConstraints_deviceId]
    simp [defaultSessionConstraints, hid]
  · exact setupNewMediaStream_micDevices _ _ _

/-- Witness for C6: a stored id "mic-42" yields an ideal clause; an
absent stored id yields no device clause. -/
theorem c6_default_session_witness :
    (setMediaStreamToDefault pDesktop none rawDirectory {} wMic42).requested.audio.deviceId
      = some (DeviceIdClause.ideal "mic-42") ∧
    (setMediaStreamToDefault pDesktop none rawDirectory {} {}).requested.audio.deviceId
      = none :=
  ⟨(c6_default_session pDesktop none rawDirectory {} wMic42).1 "mic-42" rfl (by decide),
   (c6_default_session pDesktop none rawDirectory {} {}).2.1 rfl⟩

/-- C7: `selectMicDevice` requests with an exact-device clause for the
given id, runs the housekeeping whether or not the fetch succeeded
(device cache refreshed for every provider answer), and returns the
fetch's success flag unchanged. -/
theorem c7_select_mic_device (p : Platform) (gum : Option MediaStream)
    (raw : List RawDevice) (deviceId : String) (m : AudioManager) (w : World) :
    (selectMicDevice p gum raw deviceId m w).requested.audio.deviceId
      = some (DeviceIdClause.exact [deviceId]) ∧
    (selectMicDevice p gum raw deviceId m w).result
      = (fetchAudioTrack p gum
          { audio := { deviceId := some (DeviceIdClause.exact [deviceId]) } } m w).success ∧
    (selectMicDevice p gum raw deviceId m w).mgr.micDevices = micDevicesOfRaw raw := by
  refine ⟨?_, rfl, ?_⟩
  · show (fetchAudioTrack p gum
        { audio := { deviceId := some (DeviceIdClause.exact [deviceId]) } } m w).requested.audio.deviceId = _
    rw [fetchAudioTrack_requested, applyPrefConstraints_deviceId]
  · exact setupNewMediaStream_micDevices _ _ _

/-- C8: `selectedMicDeviceId` is recomputed on demand from the active
track's label: it is the value of the first cached device whose label
equals that label, `none` when no cached label matches, and `none`
when no track is active (the empty label matches no refreshed cache
entry, since `fetchMicDevices` never produces an empty label); every
case is a total computation, no exception. -/
theorem c8_selected_device_id_derived :
    (∀ m : AudioManager, selectedMicDeviceId m
        = micDeviceIdForMicLabel m.micDevices (selectedMicLabel m)) ∧
    (∀ (m : AudioManager) (t : Track), m.audioTrack = some t →
        selectedMicDeviceId m = micDeviceIdForMicLabel m.micDevices t.label) ∧
    (∀ (devs : List MicDevice) (label : String),
        (∀ d ∈ devs, d.label ≠ label) → micDeviceIdForMicLabel devs label = none) ∧
    (∀ (l1 : List MicDevice) (d : MicDevice) (l2 : List MicDevice),
        (∀ e ∈ l1, e.label ≠ d.label) →
        micDeviceIdForMicLabel (l1 ++ d :: l2) d.label = some d.value) ∧
    (∀ (raw : List RawDevice) (d : MicDevice), d ∈ micDevicesOfRaw raw → d.label ≠ "") ∧
    (∀ m : AudioManager, m.audioTrack = none →
        (∀ d ∈ m.micDevices, d.label ≠ "") → selectedMicDeviceId m = none) := by
  have key3 : ∀ (devs : List MicDevice) (label : String),
      (∀ d ∈ devs, d.label ≠ label) → micDeviceIdForMicLabel devs label = none := by
    intro devs label hall
    unfold micDeviceIdForMicLabel
    have hf : devs.filter (fun d => d.label == label) = [] := by
      rw [List.filter_eq_nil_iff]
      intro d hd
      simpa using hall d hd
    rw [hf]
    rfl
  refine ⟨fun m => rfl, ?_, key3, ?_, ?_, ?_⟩
  · intro m t ht
    simp [selectedMicDeviceId, selectedMicLabel, micLabelForAudioTrack, ht]
  · intro l1 d l2 h1
    unfold micDeviceIdForMicLabel
    rw [List.filter_append]
    have h1f : l1.filter (fun e => e.label == d.label) = [] := by
      rw [List.filter_eq_nil_iff]
      intro e he
      simpa using h1 e he
    rw [h1f]
    simp
  · intro raw d hd
    simp [micDevicesOfRaw, List.mem_map] at hd
    obtain ⟨rd, hrd, rfl⟩ := hd
    simp only [micDeviceOfRaw]
    split
    · intro hcontra
      have hlen := congrArg String.length hcontra
      rw [String.length_append, String.length_append] at hlen
      have h5 : ("Mic (" : String).length = 5 := rfl
      have h1l : (")" : String).length = 1 := rfl
      have h0 : ("" : String).length = 0 := rfl
      rw [h5, h1l, h0] at hlen
      omega
    · next hcond => exact hcond
  · intro m hm hall
    show micDeviceIdForMicLabel m.micDevices (selectedMicLabel m) = none
    have hlab : selectedMicLabel m = "" := by
      simp [selectedMicLabel, micLabelForAudioTrack, hm]
    rw [hlab]
    exact key3 _ _ hall

/-- Witness for C8: the first matching cached device wins, and a cache
without the track's label yields `none`. -/
theorem c8_selected_device_id_derived_witness :
    selectedMicDeviceId
        { micDevices := [⟨"idA", "Other"⟩, ⟨"idB", "BuiltIn Mic"⟩, ⟨"idC", "BuiltIn Mic"⟩],
          audioTrack := some ⟨4, "BuiltIn Mic"⟩ }
      = some "idB" ∧
    selectedMicDeviceId
        { micDevices := [⟨"idA", "Other"⟩], audioTrack := some ⟨4, "BuiltIn Mic"⟩ }
      = none := by
  constructor
  · rw [c8_selected_device_id_derived.2.1 _ ⟨4, "BuiltIn Mic"⟩ rfl]
    exact c8_selected_device_id_derived.2.2.2.1
      [⟨"idA", "Other"⟩] ⟨"idB", "BuiltIn Mic"⟩ [⟨"idC", "BuiltIn Mic"⟩] (by decide)
  · rw [c8_selected_device_id_derived.2.1 _ ⟨4, "BuiltIn Mic"⟩ rfl]
    exact c8_selected_device_id_derived.2.2.1 _ _ (by decide)

/-- C9: housekeeping with no active track refreshes the device cache
but leaves the world (settings store, event bus, everything else)
untouched; with an active track whose id resolves via label lookup
over the refreshed directory it persists that id as the last-used
device id and emits `local-media-stream-created`. -/
theorem c9_setup_housekeeping (raw : List RawDevice) (m : AudioManager) (w : World) :
    (m.audioTrack = none → setupNewMediaStream raw m w = (fetchMicDevices raw m, w)) ∧
    (∀ (t : Track) (id : String), m.audioTrack = some t →
      micDeviceIdForMicLabel (micDevicesOfRaw raw) t.label = some id → id ≠ "" →
      (setupNewMediaStream raw m w).2.store.settings.lastUsedMicDeviceId = some id ∧
      (setupNewMediaStream raw m w).2.emitted
        = "local-media-stream-created" :: w.emitted ∧
      (setupNewMediaStream raw m w).2.stoppedTracks = w.stoppedTracks) := by
  constructor
  · intro hm
    unfold setupNewMediaStream fetchMicDevices
    simp [hm]
  · intro t id hm hlook hne
    unfold setupNewMediaStream fetchMicDevices
    simp [hm, micLabelForAudioTrack, hlook, hne]

/-- Witness for C9 at a concrete directory and track. -/
theorem c9_setup_housekeeping_witness :
    (setupNewMediaStream rawDirectory { audioTrack := some ⟨4, "BuiltIn Mic"⟩ }
        {}).2.store.settings.lastUsedMicDeviceId = some "id1" ∧
    (setupNewMediaStream rawDirectory { audioTrack := some ⟨4, "BuiltIn Mic"⟩ }
        {}).2.emitted = "local-media-stream-created" :: ({} : World).emitted ∧
    setupNewMediaStream rawDirectory {} {} = (fetchMicDevices rawDirectory {}, {}) := by
  have h := (c9_setup_housekeeping rawDirectory { audioTrack := some ⟨4, "BuiltIn Mic"⟩ } {}).2
    ⟨4, "BuiltIn Mic"⟩ "id1" rfl (by decide) (by decide)
  exact ⟨h.1, h.2.1, (c9_setup_housekeeping rawDirectory {} {}).1 rfl⟩

/-- C10: the constraints actually sent to the provider are the caller's
object with the three processing toggles written into its audio member
(device clause untouched, every toggle present afterwards); the armed
recovery listener captures exactly that mutated object, and every
recovery re-request passes exactly its captured constraints, re-arming
with the same object again. -/
theorem c10_in_place_constraint_mutation (p : Platform) (gum : Option MediaStream)
    (c : Constraints) (m : AudioManager) (w : World) :
    (fetchAudioTrack p gum c m w).requested
      = (applyPrefConstraints p.isFirefoxReality w.store.preferences c).1 ∧
    (fetchAudioTrack p gum c m w).requested.audio.deviceId = c.audio.deviceId ∧
    (fetchAudioTrack p gum c m w).requested.audio.echoCancellation.isSome = true ∧
    (fetchAudioTrack p gum c m w).requested.audio.noiseSuppression.isSome = true ∧
    (fetchAudioTrack p gum c m w).requested.audio.autoGainControl.isSome = true ∧
    (∀ cc, (fetchAudioTrack p gum c m w).armed = some cc →
      cc = (fetchAudioTrack p gum c m w).requested) ∧
    (∀ (cc : Constraints) (gum2 : Option MediaStream) (m2 : AudioManager) (w2 : World),
      (recreateAudioStream cc gum2 m2 w2).requested = cc ∧
      (∀ cc2, (recreateAudioStream cc gum2 m2 w2).armed = some cc2 → cc2 = cc)) := by
  have hreq := fetchAudioTrack_requested p gum c m w
  refine ⟨hreq, ?_, ?_, ?_, ?_, ?_, ?_⟩
  · rw [hreq, applyPrefConstraints_deviceId]
  · rw [hreq]; unfold applyPrefConstraints; split <;> rfl
  · rw [hreq]; unfold applyPrefConstraints; split <;> rfl
  · rw [hreq]; unfold applyPrefConstraints; split <;> rfl
  · intro cc harm
    unfold fetchAudioTrack at harm ⊢
    cases hm : m.audioTrack <;> rw [hm] at harm <;> rcases gum with _ | st <;>
      simp at harm
    all_goals {
      rcases hh : st.tracks.head? with _ | tn <;> rw [hh] at harm <;> simp [hh] at harm ⊢
      · cases hoc : p.oculusUA <;> rw [hoc] at harm <;> simp at harm
      · cases hoc : p.oculusUA <;> rw [hoc] at harm <;> simp at harm
        exact harm.symm
    }
  · intro cc gum2 m2 w2
    constructor
    · unfold recreateAudioStream
      rcases gum2 with _ | st <;> simp
      rcases hh : st.tracks.head? with _ | tn <;> simp [hh]
    · intro cc2 harm
      unfold recreateAudioStream at harm
      rcases gum2 with _ | st <;> simp at harm
      rcases hh : st.tracks.head? with _ | tn <;> rw [hh] at harm <;> simp at harm
      exact harm.symm

/-- Witness for C10: on the Oculus platform the armed constraints are
exactly the mutated caller constraints, and the recovery closure
re-requests with exactly its captured constraints. -/
theorem c10_in_place_constraint_mutation_witness :
    mutatedEmptyConstraints
      = (fetchAudioTrack pOculus (some stream1) emptyConstraints {} {}).requested ∧
    (recreateAudioStream emptyConstraints (some stream2) {} {}).requested
      = emptyConstraints := by
  have h := c10_in_place_constraint_mutation pOculus (some stream1) emptyConstraints {} {}
  exact ⟨h.2.2.2.2.2.1 _ (by decide),
    (h.2.2.2.2.2.2 emptyConstraints (some stream2) {} {}).1⟩

end Hubs
